import Mathlib

/-!
Verification of the task sequencing and history-reconciliation engine of
`phy/cluster/supervisor.py` (class `TaskLogger` and the clustering actions of
`Supervisor`).

The embedding mirrors the Python source:

* tasks are `(sender, name, args, kwargs)` tuples; completed entries add an
  output slot;
* Python `None` is `Option.none`; a function that can raise (`IndexError` on
  `added[0]`, `TypeError` when unpacking a `None` state) returns `Option` and
  yields `Option.none` on the raising path;
* the history scan `last_state`, the backward search `last_task`, the queue
  loop `process`, and each `_after_*` rule are translated clause by clause.
-/

/-- The possible senders/targets of a task: the cluster view (primary), the
similarity view (secondary), or the supervisor itself. -/
inductive Sender where
  | clusterView
  | similarityView
  | supervisor
deriving DecidableEq, Repr

/-- Python values that occur as task arguments and keyword-argument values in
the engine: `None`, booleans, ints, strings, and lists of cluster ids. -/
inductive PyVal where
  | pynone
  | bool (b : Bool)
  | int (n : Int)
  | str (s : String)
  | ints (l : List Int)
deriving DecidableEq, Repr

/-- Encode an optional id list the way the Python code passes it around
(`None` or a list). -/
def pyOptIds : Option (List Int) → PyVal
  | Option.none => PyVal.pynone
  | some l => PyVal.ints l

/-- The subset of an `UpdateInfo` outcome that the engine reads:
`added`, `deleted`, `description`, `metadata_changed`, `metadata_value`. -/
structure UpdateInfo where
  added : List Int
  deleted : List Int
  description : String
  metadata_changed : List Int
  metadata_value : PyVal
deriving DecidableEq, Repr

/-- The output slot of a completed task: Python `None`, a selection event
object (with its `selected` list and optional `next` id), or an `UpdateInfo`.
Entries whose name is `select`/`next`/`previous` only ever carry `pynone` or
`sel` outputs in the source; the `update` case is mapped to an absent
selection when read back. -/
inductive Output where
  | pynone
  | sel (selected : List Int) (next : Option Int)
  | update (u : UpdateInfo)
deriving DecidableEq, Repr

/-- A pending task `(sender, name, args, kwargs)` as stored in
`TaskLogger._queue`. -/
structure PTask where
  sender : Sender
  name : String
  args : List PyVal
  kwargs : List (String × PyVal)
deriving DecidableEq, Repr

/-- A completed entry of `TaskLogger._history`: a task plus its output. -/
structure Entry where
  sender : Sender
  name : String
  args : List PyVal
  kwargs : List (String × PyVal)
  output : Output
deriving DecidableEq, Repr

/-- The resolved selection state
`(cluster_ids, next_cluster, similar, next_similar)` returned by
`TaskLogger.last_state`; each slot is `None` when unresolved. -/
structure SelState where
  cluster_ids : Option (List Int)
  next_cluster : Option Int
  similar : Option (List Int)
  next_similar : Option Int
deriving DecidableEq, Repr

/-- One primary- or secondary-view slot pair `(selected, next)` as tracked
during the backward scan. -/
abbrev SelPair := Option (List Int) × Option Int

/-- The action names that qualify as selection entries in `last_state`:
`('select', 'next', 'previous')`. -/
def navNames : List String := ["select", "next", "previous"]

/-- Read `(output['selected'], output['next']) if output else (None, None)`
from an entry. A `pynone` output is falsy, so it yields `(None, None)`; an
`update` output never reaches this read in the source (selection-named view
entries carry selection outputs) and is mapped to `(None, None)` as well. -/
def entrySelNext (e : Entry) : SelPair :=
  match e.output with
  | Output.pynone => (Option.none, Option.none)
  | Output.sel s n => (some s, n)
  | Output.update _ => (Option.none, Option.none)

/-- The `similarity_state` update performed on each scanned entry of
`last_state`: capture `(selected, next)` when the entry is a
similarity-view selection entry and the slot is still unresolved. -/
def simUpdate (e : Entry) (sState : SelPair) : SelPair :=
  if e.sender = Sender.similarityView ∧ sState = (Option.none, Option.none) ∧
      e.name ∈ navNames then
    entrySelNext e
  else sState

/-- The backward scan of `TaskLogger.last_state`, over the reversed history.
`cState`/`sState` are the `cluster_state`/`similarity_state` accumulators,
both starting at `(None, None)`; each entry first updates the similarity
slot, then the scan returns the 4-tuple the moment the cluster-view slot
resolves, and `Option.none` (Python falls off the `for` loop and returns
`None`) when it never does. -/
def lastStateGo : List Entry → SelPair → SelPair → Option SelState
  | [], _, _ => Option.none
  | e :: rest, cState, sState =>
    if e.sender = Sender.clusterView ∧ cState = (Option.none, Option.none) ∧
        e.name ∈ navNames then
      some ⟨(entrySelNext e).1, (entrySelNext e).2,
        (simUpdate e sState).1, (simUpdate e sState).2⟩
    else
      lastStateGo rest cState (simUpdate e sState)

/-- The truncation `h = self._history[:self._history.index(task)]` of
`last_state`: the entries strictly before the first occurrence of a
structurally equal entry (the whole history when no task is given). -/
def truncated (h : List Entry) (task : Option Entry) : List Entry :=
  match task with
  | Option.none => h
  | some t => h.take (h.indexOf t)

/-- `TaskLogger.last_state(task)`: scan the (possibly truncated) history
backward. -/
def lastState (h : List Entry) (task : Option Entry) : Option SelState :=
  lastStateGo (truncated h task).reverse (Option.none, Option.none) (Option.none, Option.none)

/-- The filter of `TaskLogger.last_task`:
`(name and name_ == name) or (name_not_in and name_ and name_ not in name_not_in)`. -/
def lastTaskPred (name : Option String) (nameNotIn : List String) (e : Entry) : Bool :=
  (match name with
   | some n => n ≠ "" && e.name == n
   | Option.none => false) ||
  (!nameNotIn.isEmpty && e.name ≠ "" && !nameNotIn.contains e.name)

/-- `TaskLogger.last_task(name, name_not_in)`: the most recent history entry
matching the filter, or `None`. -/
def lastTask (h : List Entry) (name : Option String) (nameNotIn : List String) :
    Option Entry :=
  h.reverse.find? (lastTaskPred name nameNotIn)

/-- The mutable state of a `TaskLogger`: the `_processing` flag,
the pending `_queue` and the completed `_history`. -/
structure TaskLoggerState where
  processing : Bool
  queue : List PTask
  history : List Entry
deriving DecidableEq, Repr

/-- `TaskLogger.enqueue`: append a task at the tail of the queue. -/
def enqueue (s : TaskLoggerState) (t : PTask) : TaskLoggerState :=
  ⟨s.processing, s.queue ++ [t], s.history⟩

/-- `TaskLogger.dequeue`: pop the head of the queue, or `None`. -/
def dequeue (s : TaskLoggerState) : Option PTask × TaskLoggerState :=
  match s.queue with
  | [] => (Option.none, s)
  | t :: rest => (some t, ⟨s.processing, rest, s.history⟩)

/-- `TaskLogger.process`: set `_processing`, pop one task; if there is none,
clear `_processing` and stop; otherwise hand the popped task to `_eval`.
The second component is the task passed to `_eval` (if any). -/
def process (s : TaskLoggerState) : TaskLoggerState × Option PTask :=
  let s1 : TaskLoggerState := ⟨true, s.queue, s.history⟩
  match dequeue s1 with
  | (Option.none, s2) => (⟨false, s2.queue, s2.history⟩, Option.none)
  | (some t, s2) => (s2, some t)

/-- `TaskLogger.has_finished`: queue empty and not processing. -/
def hasFinished (s : TaskLoggerState) : Bool :=
  s.queue.isEmpty && !s.processing

/-- The `task[1:]` comparison of `TaskLogger._log`: structural equality of
name, args, kwargs and output, ignoring the sender. -/
def tailEq (a b : Entry) : Bool :=
  a.name == b.name && a.args == b.args && a.kwargs == b.kwargs && a.output == b.output

/-- `TaskLogger._log`: append a completed entry to the history unless it is a
structural duplicate (ignoring sender) of the current last entry. -/
def logEntry (h : List Entry) (e : Entry) : List Entry :=
  match h.getLast? with
  | Option.none => h ++ [e]
  | some last => if tailEq last e then h else h ++ [e]

/-- Task enqueued for `cluster_view.next()`. -/
def clusterNext : PTask := ⟨Sender.clusterView, "next", [], []⟩

/-- Task enqueued for `similarity_view.next()`. -/
def simNext : PTask := ⟨Sender.similarityView, "next", [], []⟩

/-- Task enqueued for `cluster_view.select(ids)` (no keyword arguments). -/
def clusterSelect (o : Option (List Int)) : PTask :=
  ⟨Sender.clusterView, "select", [pyOptIds o], []⟩

/-- Task enqueued for `similarity_view.select(ids)`. -/
def simSelect (l : List Int) : PTask :=
  ⟨Sender.similarityView, "select", [PyVal.ints l], []⟩

/-- `TaskLogger._after_merge`: read `output.deleted` and `output.added[0]`
(`Option.none` models the `IndexError` when `added` is empty), unpack
`last_state()` (`Option.none` models the `TypeError` when it is `None`), then
enqueue the cluster-view select of the surviving id — with
`update_views=similar is None` — and, unless `similar is None`, the
similarity-view select of `similar` (replaced by the singleton next candidate
when the merged ids intersect it and a next candidate exists). -/
def afterMerge (u : UpdateInfo) (h : List Entry) : Option (List PTask) :=
  match u.added with
  | [] => Option.none
  | toId :: _ =>
    match lastState h Option.none with
    | Option.none => Option.none
    | some st =>
      let first : PTask :=
        ⟨Sender.clusterView, "select", [PyVal.ints [toId]],
          [("update_views", PyVal.bool st.similar.isNone)]⟩
      match st.similar with
      | Option.none => some [first]
      | some sim =>
        let sim2 :=
          match st.next_similar with
          | some ns => if ∃ d ∈ u.deleted, d ∈ sim then [ns] else sim
          | Option.none => sim
        some [first, simSelect sim2]

/-- `TaskLogger._after_split`: select the newly added clusters in the
cluster view. -/
def afterSplit (u : UpdateInfo) : List PTask :=
  [⟨Sender.clusterView, "select", [PyVal.ints u.added], []⟩]

/-- `TaskLogger._get_clusters` for a list-valued `which` (the
`metadata_changed` case): it first unpacks `last_state()` — a `TypeError`
when that is `None` — and then falls through all three string comparisons
and returns `which` unchanged. -/
def getClusters (h : List Entry) (which : List Int) : Option (List Int) :=
  match lastState h Option.none with
  | Option.none => Option.none
  | some _ => some which

/-- `TaskLogger._after_move`: compute the moved set via `_get_clusters`,
unpack `last_state()` again, default `None` selections to empty sets, and
dispatch `next()` to the cluster view, the similarity view, or both. -/
def afterMove (u : UpdateInfo) (h : List Entry) : Option (List PTask) :=
  match getClusters h u.metadata_changed with
  | Option.none => Option.none
  | some moved =>
    match lastState h Option.none with
    | Option.none => Option.none
    | some st =>
      let cids := st.cluster_ids.getD []
      let sim := st.similar.getD []
      if ∀ x ∈ moved, x ∈ cids then some [clusterNext]
      else if ∀ x ∈ moved, x ∈ sim then some [simNext]
      else some [clusterNext, simNext]

/-- The names excluded by `_after_undo` when locating the undone action:
`('select', 'next', 'previous', 'undo', 'redo')`. -/
def undoExcluded : List String := ["select", "next", "previous", "undo", "redo"]

/-- `TaskLogger._select_state`: enqueue the cluster-view select of
`cluster_ids` and, when `similar` is truthy (a non-empty list), the
similarity-view select of `similar`. -/
def selectState (st : SelState) : List PTask :=
  clusterSelect st.cluster_ids ::
  (match st.similar with
   | some (x :: xs) => [simSelect (x :: xs)]
   | _ => [])

/-- `TaskLogger._after_undo`: locate the most recent non-selection,
non-navigation, non-undo/redo entry, resolve the state strictly before the
first structurally equal occurrence of it, and enqueue the selects of that
state; `Option.none` models the `TypeError` raised in `_select_state` when
the resolved state is `None`. -/
def afterUndo (h : List Entry) : Option (List PTask) :=
  match lastState h (lastTask h Option.none undoExcluded) with
  | Option.none => Option.none
  | some st => some (selectState st)

/-- `TaskLogger._after_redo`: same as undo, but anchored at the most recent
`undo` entry. -/
def afterRedo (h : List Entry) : Option (List PTask) :=
  match lastState h (lastTask h (some "undo") []) with
  | Option.none => Option.none
  | some st => some (selectState st)

/-- The navigation call dispatched by `Supervisor.next`. -/
inductive NavCall where
  | clusterFirst
  | similarityNext
deriving DecidableEq, Repr

/-- `Supervisor.next`: if `last_state()` is falsy or its first slot is falsy,
call `cluster_view.first()`; otherwise call `similarity_view.next()`. -/
def supervisorNext (h : List Entry) : NavCall :=
  match lastState h Option.none with
  | Option.none => NavCall.clusterFirst
  | some st =>
    match st.cluster_ids with
    | Option.none => NavCall.clusterFirst
    | some [] => NavCall.clusterFirst
    | some (_ :: _) => NavCall.similarityNext

/-- Modelled from the spec: `_uniq` (imported from `phy.gui.widgets`, not
under `src/`) — order-preserving deduplication of an id list. -/
def uniqGo : List Int → List Int → List Int
  | [], _ => []
  | x :: xs, seen => if x ∈ seen then uniqGo xs seen else x :: uniqGo xs (x :: seen)

/-- Modelled from the spec: `_uniq` on a list, starting from nothing seen. -/
def uniq (l : List Int) : List Int := uniqGo l []

/-- `Supervisor.selected_clusters`: `state[0] or [] if state else []`. -/
def selectedClusters (h : List Entry) : List Int :=
  match lastState h Option.none with
  | Option.none => []
  | some st => st.cluster_ids.getD []

/-- `Supervisor.selected_similar`: `state[2] or [] if state else []`. -/
def selectedSimilar (h : List Entry) : List Int :=
  match lastState h Option.none with
  | Option.none => []
  | some st => st.similar.getD []

/-- `Supervisor.selected`: `_uniq(selected_clusters + selected_similar)`. -/
def selectedAll (h : List Entry) : List Int :=
  uniq (selectedClusters h ++ selectedSimilar h)

/-- `Supervisor.merge`: default an absent `cluster_ids` to the current
selection; if the resulting list has length at most one, return `None`
without touching the clustering store or the global history; otherwise call
`clustering.merge` and push a global-history action. The clustering store and
global history are abstract (their code lives outside `supervisor.py`), so
the mutators are parameters. -/
def supervisorMerge {Store GH : Type}
    (clusteringMerge : List Int → Option Int → Store → Store × UpdateInfo)
    (ghAction : GH → GH)
    (selected : List Int) (cluster_ids : Option (List Int)) (toId : Option Int)
    (store : Store) (gh : GH) : Option UpdateInfo × Store × GH :=
  let ids := match cluster_ids with
    | Option.none => selected
    | some l => l
  if ids.length ≤ 1 then (Option.none, store, gh)
  else
    let (store', out) := clusteringMerge ids toId store
    (some out, store', ghAction gh)

/-- An event bus as used by `connect`/`unconnect`/`emit` for the `'cluster'`
event: the ordered list of connected handlers (identified by numbers). -/
structure EventBus where
  handlers : List Nat
deriving DecidableEq, Repr

/-- `connect(f, event='cluster', sender=...)`: register a handler. -/
def connectH (cb : Nat) (b : EventBus) : EventBus :=
  ⟨b.handlers ++ [cb]⟩

/-- `unconnect(f)`: remove a handler. -/
def unconnectH (cb : Nat) (b : EventBus) : EventBus :=
  ⟨b.handlers.filter (fun x => x != cb)⟩

/-- One `emit('cluster', sender, up)`: deliver the payload to every connected
handler, in order. -/
def emitCluster (b : EventBus) (u : UpdateInfo) : List (Nat × UpdateInfo) :=
  b.handlers.map (fun hid => (hid, u))

/-- The no-callback branch of `TaskLogger._eval`: connect the task's
`_cluster_callback`, run the operation — which synchronously emits the given
`'cluster'` notifications, each delivered to all handlers connected at that
moment — then unconnect. Returns the list of deliveries made during the run
and the bus after the unconnect. -/
def evalEventPath (b : EventBus) (cb : Nat) (emitted : List UpdateInfo) :
    List (Nat × UpdateInfo) × EventBus :=
  let b1 := connectH cb b
  ((emitted.map (fun u => emitCluster b1 u)).flatten, unconnectH cb b1)

/-- How many deliveries of a list went to a given handler. -/
def firesTo (cb : Nat) (fires : List (Nat × UpdateInfo)) : Nat :=
  (fires.filter (fun p => p.1 == cb)).length

/-! Concrete inputs used by the counterexamples and witnesses below. -/

/-- A merge task as enqueued by `Supervisor._on_action`. -/
def tMerge : PTask := ⟨Sender.supervisor, "merge", [], []⟩

/-- A `TaskLogger` state that is mid-execution (`_processing` set) with one
pending task. -/
def sCex1 : TaskLoggerState := ⟨true, [tMerge], []⟩

/-- A completed cluster-view selection of cluster 1 (next candidate 2). -/
def eClusterSel1 : Entry :=
  ⟨Sender.clusterView, "select", [PyVal.ints [1]], [], Output.sel [1] (some 2)⟩

/-- A completed similarity-view selection whose selection is the empty list. -/
def eSimSelEmpty : Entry :=
  ⟨Sender.similarityView, "select", [PyVal.ints []], [], Output.sel [] Option.none⟩

/-- A completed similarity-view selection of clusters 2 and 3 (next 4). -/
def eSimSel23 : Entry :=
  ⟨Sender.similarityView, "select", [PyVal.ints [2, 3]], [], Output.sel [2, 3] (some 4)⟩

/-- The outcome of merging clusters 5 and 6 into 7. -/
def uMerge56to7 : UpdateInfo := ⟨[7], [5, 6], "merge", [], PyVal.pynone⟩

/-- The outcome of moving cluster 7 to the noise group. -/
def uMove7noise : UpdateInfo := ⟨[], [], "metadata_group", [7], PyVal.str "noise"⟩

/-- A history whose resolved secondary selection is present but empty. -/
def hCex2 : List Entry := [eClusterSel1, eSimSelEmpty]

/-- A completed move task (cluster 7 to noise). -/
def eMoveDup : Entry :=
  ⟨Sender.supervisor, "move", [PyVal.str "noise", PyVal.str "best"], [],
    Output.update uMove7noise⟩

/-- A history in which the most recent qualifying (non-selection) entry is
structurally identical to an earlier, non-consecutive one. -/
def hCex4 : List Entry := [eMoveDup, eClusterSel1, eMoveDup]

/-- A completed cluster-view selection of cluster 7 (no next candidate). -/
def eClusterSel7 : Entry :=
  ⟨Sender.clusterView, "select", [PyVal.ints [7]], [], Output.sel [7] Option.none⟩

/-- A completed similarity-view selection of cluster 9 (no next candidate). -/
def eSimSel9 : Entry :=
  ⟨Sender.similarityView, "select", [PyVal.ints [9]], [], Output.sel [9] Option.none⟩

/-- The outcome of a move that changed the metadata of clusters 7 and 9. -/
def uMove79 : UpdateInfo := ⟨[], [], "metadata_group", [7, 9], PyVal.str "noise"⟩

/-! Theorems. -/

/-- Claim C1 (amended): `process()` never consults the `_processing` flag —
there is no re-entrancy guard. Every call sets the flag and pops the head of
the queue; when the queue is empty it clears the flag and executes nothing,
otherwise it hands the popped head to `_eval`. The history is untouched. -/
theorem C1_process_always_pops (s : TaskLoggerState) :
    (process s).2 = s.queue.head? ∧
    (process s).1.queue = s.queue.tail ∧
    (process s).1.processing = !s.queue.isEmpty ∧
    (process s).1.history = s.history := by
  cases s with
  | mk p q hi =>
    cases q with
    | nil => exact ⟨rfl, rfl, rfl, rfl⟩
    | cons t rest => exact ⟨rfl, rfl, rfl, rfl⟩

/-- Claim C1 counterexample: in a state whose `_processing` flag is set and
whose queue holds one task, `process()` does not return immediately leaving
the state unchanged — it dequeues and executes the pending task. -/
theorem C1_counterexample :
    ¬ (sCex1.processing = true → process sCex1 = (sCex1, Option.none)) := by
  decide

/-- Claim C3 helper: the backward scan returns `Option.none` whenever no
scanned entry is a cluster-view selection entry, whatever the accumulators. -/
theorem lastStateGo_none_of_no_cluster (l : List Entry)
    (hq : ∀ e ∈ l, ¬ (e.sender = Sender.clusterView ∧ e.name ∈ navNames)) :
    ∀ c s, lastStateGo l c s = Option.none := by
  induction l with
  | nil => intro c s; rfl
  | cons e rest ih =>
    intro c s
    have he := hq e (List.mem_cons_self e rest)
    have hrest : ∀ x ∈ rest, ¬ (x.sender = Sender.clusterView ∧ x.name ∈ navNames) :=
      fun x hx => hq x (List.mem_cons_of_mem e hx)
    unfold lastStateGo
    rw [if_neg]
    · exact ih hrest _ _
    · exact fun hcon => he ⟨hcon.1, hcon.2.2⟩

/-- Claim C3 (amended): over an empty log, or a log with no cluster-view
selection/navigation entry, `last_state` returns plain absence (Python
`None`) rather than an all-absent 4-tuple; callers must null-check it and
treat absence as "nothing selected yet". -/
theorem C3_resolve_absent (h : List Entry)
    (hq : ∀ e ∈ h, ¬ (e.sender = Sender.clusterView ∧ e.name ∈ navNames)) :
    lastState h Option.none = Option.none := by
  unfold lastState
  exact lastStateGo_none_of_no_cluster _
    (fun e he => hq e (List.mem_reverse.mp he)) _ _

/-- Claim C3 witness: a log holding a single completed move entry resolves to
absence. -/
theorem C3_resolve_absent_witness :
    lastState [eMoveDup] Option.none = Option.none :=
  C3_resolve_absent [eMoveDup] (by decide)

/-- Claim C3 counterexample: over the empty log, `last_state` does not return
the all-absent `SelectionState` 4-tuple — it returns `None` itself (the
Python function falls off its loop), which is a different value that callers
must guard against before indexing or unpacking. -/
theorem C3_counterexample :
    lastState [] Option.none = Option.none ∧
    ¬ (lastState [] Option.none =
        some ⟨Option.none, Option.none, Option.none, Option.none⟩) := by
  decide

/-- Claim C9: `Supervisor.next` calls `cluster_view.first()` exactly when the
resolved state is absent or its primary slot is falsy (`None` or the empty
list), and calls `similarity_view.next()` exactly when the primary slot is a
non-empty selection. -/
theorem C9_next_dispatch (h : List Entry) :
    (supervisorNext h = NavCall.clusterFirst ↔
      (lastState h Option.none = Option.none ∨
        ∃ st, lastState h Option.none = some st ∧
          (st.cluster_ids = Option.none ∨ st.cluster_ids = some []))) ∧
    (supervisorNext h = NavCall.similarityNext ↔
      ∃ st l, lastState h Option.none = some st ∧ st.cluster_ids = some l ∧ l ≠ []) := by
  unfold supervisorNext
  cases hls : lastState h Option.none with
  | none => simp
  | some st =>
    cases hc : st.cluster_ids with
    | none => simp [hc]
    | some l =>
      cases l with
      | nil => simp [hc]
      | cons a as => simp [hc]

/-- Claim C2 (amended): after a merge, the first enqueued task is the
cluster-view select of the surviving id, whose `update_views` flag is
suppressed (false) if and only if the pre-action secondary selection is
*present* (not Python `None`) — presence, not non-emptiness, is what the code
tests — and a second, similarity-view select is enqueued if and only if the
secondary selection is present, even when it is the empty list. -/
theorem C2_merge_followup (u : UpdateInfo) (h : List Entry) (st : SelState)
    (toId : Int) (rest : List Int)
    (hadd : u.added = toId :: rest)
    (hst : lastState h Option.none = some st) :
    ∃ l, afterMerge u h = some l ∧
      l.head? = some ⟨Sender.clusterView, "select", [PyVal.ints [toId]],
        [("update_views", PyVal.bool st.similar.isNone)]⟩ ∧
      (st.similar = Option.none → l.length = 1) ∧
      (∀ s, st.similar = some s → l.length = 2 ∧
        ∃ tl, l.getLast? = some tl ∧
          tl.sender = Sender.similarityView ∧ tl.name = "select") := by
  obtain ⟨ci, nc, sim, ns⟩ := st
  cases sim with
  | none =>
    unfold afterMerge
    rw [hadd, hst]
    exact ⟨_, rfl, rfl, fun _ => rfl, fun s hs => Option.noConfusion hs⟩
  | some simL =>
    unfold afterMerge
    rw [hadd, hst]
    exact ⟨_, rfl, rfl, fun hs => Option.noConfusion hs,
      fun s _ => ⟨rfl, _, rfl, rfl, rfl⟩⟩

/-- Claim C2 witness: merging 5 and 6 into 7 with no resolved secondary
selection enqueues exactly the unsuppressed cluster-view select. -/
theorem C2_merge_followup_witness :
    ∃ l, afterMerge uMerge56to7 [eClusterSel1] = some l ∧
      l.head? = some ⟨Sender.clusterView, "select", [PyVal.ints [7]],
        [("update_views", PyVal.bool true)]⟩ ∧
      ((Option.none : Option (List Int)) = Option.none → l.length = 1) ∧
      (∀ s, (Option.none : Option (List Int)) = some s → l.length = 2 ∧
        ∃ tl, l.getLast? = some tl ∧
          tl.sender = Sender.similarityView ∧ tl.name = "select") :=
  C2_merge_followup uMerge56to7 [eClusterSel1]
    ⟨some [1], some 2, Option.none, Option.none⟩ 7 [] rfl (by decide)

/-- Claim C2 counterexample: with a resolved but *empty* secondary selection,
the code still enqueues two selects and still suppresses the primary
`update_views` flag, whereas the claim mandates exactly one unsuppressed
select when the secondary selection is non-empty in no way. -/
theorem C2_counterexample :
    (lastState hCex2 Option.none).map SelState.similar = some (some []) ∧
    ¬ ((afterMerge uMerge56to7 hCex2).map List.length = some 1) ∧
    afterMerge uMerge56to7 hCex2 = some
      [⟨Sender.clusterView, "select", [PyVal.ints [7]],
          [("update_views", PyVal.bool false)]⟩,
        ⟨Sender.similarityView, "select", [PyVal.ints []], []⟩] := by
  decide

/-- Claim C4 (amended): after an undo, the engine locates the most recent
history entry whose name is none of select/next/previous/undo/redo, resolves
the selection state from the entries strictly before the *first occurrence in
the log structurally equal to that entry* (which is the entry itself whenever
it occurs only once), and — when that resolution yields a state — enqueues
the cluster-view select of its primary ids, followed by the similarity-view
select of its secondary ids if and only if those are a non-empty list; when
the resolution yields `None` instead, the undo follow-up raises and enqueues
nothing. -/
theorem C4_undo_followup (h : List Entry) (e : Entry) (st : SelState)
    (he : lastTask h Option.none undoExcluded = some e)
    (hst : lastState h (some e) = some st) :
    ∃ l, afterUndo h = some l ∧
      l.head? = some (clusterSelect st.cluster_ids) ∧
      (∀ s, st.similar = some s → s ≠ [] →
        l = [clusterSelect st.cluster_ids, simSelect s]) ∧
      ((st.similar = Option.none ∨ st.similar = some []) →
        l = [clusterSelect st.cluster_ids]) := by
  unfold afterUndo
  rw [he, hst]
  refine ⟨selectState st, rfl, rfl, ?_, ?_⟩
  · intro s hs hne
    unfold selectState
    rw [hs]
    cases s with
    | nil => exact absurd rfl hne
    | cons a as => rfl
  · intro hdisj
    unfold selectState
    cases hdisj with
    | inl hn => rw [hn]
    | inr he2 => rw [he2]

/-- Claim C4 witness: undoing right after a move preceded by a cluster-view
selection restores that selection. -/
theorem C4_undo_followup_witness :
    ∃ l, afterUndo [eClusterSel1, eMoveDup] = some l ∧
      l.head? = some (clusterSelect (some [1])) ∧
      (∀ s, (Option.none : Option (List Int)) = some s → s ≠ [] →
        l = [clusterSelect (some [1]), simSelect s]) ∧
      (((Option.none : Option (List Int)) = Option.none ∨
          (Option.none : Option (List Int)) = some []) →
        l = [clusterSelect (some [1])]) :=
  C4_undo_followup [eClusterSel1, eMoveDup] eMoveDup
    ⟨some [1], some 2, Option.none, Option.none⟩ (by decide) (by decide)

/-- Claim C4 counterexample: in the log `[move, select, move]`, whose two
move entries are structurally identical but separated, the most recent
qualifying entry is the final move and the state strictly before it resolves
to the selection `[1]` — so the claim mandates enqueueing its restore select
— but the code truncates at the *first* structurally identical occurrence,
resolves nothing, and raises instead of enqueueing anything. -/
theorem C4_counterexample :
    lastTask hCex4 Option.none undoExcluded = some eMoveDup ∧
    lastState (hCex4.take 2) Option.none =
      some ⟨some [1], some 2, Option.none, Option.none⟩ ∧
    afterUndo hCex4 = Option.none ∧
    ¬ (afterUndo hCex4 = some [clusterSelect (some [1])]) := by
  decide

/-- Claim C5: in a merge follow-up with a present, non-empty pre-action
secondary selection, the enqueued similarity-view select carries the
singleton next candidate exactly when the merged-away ids intersect the
secondary selection and a next candidate exists; in every other case it
carries the secondary selection unchanged. -/
theorem C5_merge_secondary_payload (u : UpdateInfo) (h : List Entry) (st : SelState)
    (toId : Int) (rest : List Int) (s : List Int)
    (hadd : u.added = toId :: rest)
    (hst : lastState h Option.none = some st)
    (hsim : st.similar = some s) (_hne : s ≠ []) :
    ((∃ d ∈ u.deleted, d ∈ s) ∧ st.next_similar ≠ Option.none →
      ∃ first ns, st.next_similar = some ns ∧
        afterMerge u h = some [first, simSelect [ns]]) ∧
    (¬ ((∃ d ∈ u.deleted, d ∈ s) ∧ st.next_similar ≠ Option.none) →
      ∃ first, afterMerge u h = some [first, simSelect s]) := by
  obtain ⟨ci, nc, sim, ns0⟩ := st
  have hsim' : sim = some s := hsim
  subst hsim'
  cases ns0 with
  | none =>
    constructor
    · intro hcon
      exact absurd rfl hcon.2
    · intro _
      simp only [afterMerge, hadd, hst]
      exact ⟨_, rfl⟩
  | some n =>
    constructor
    · intro hcon
      have hE : afterMerge u h = some
          [⟨Sender.clusterView, "select", [PyVal.ints [toId]],
            [("update_views", PyVal.bool false)]⟩, simSelect [n]] := by
        simp only [afterMerge, hadd, hst]
        rw [if_pos hcon.1]
        rfl
      exact ⟨_, n, rfl, hE⟩
    · intro hcon
      have hd : ¬ ∃ d ∈ u.deleted, d ∈ s :=
        fun hdd => hcon ⟨hdd, fun hc => Option.noConfusion hc⟩
      have hE : afterMerge u h = some
          [⟨Sender.clusterView, "select", [PyVal.ints [toId]],
            [("update_views", PyVal.bool false)]⟩, simSelect s] := by
        simp only [afterMerge, hadd, hst]
        rw [if_neg hd]
        rfl
      exact ⟨_, hE⟩

/-- Claim C5 witness: merging 5 and 6 into 7 while the secondary selection is
`[2, 3]` (disjoint from the merged ids) re-selects `[2, 3]` unchanged. -/
theorem C5_merge_secondary_payload_witness :
    ((∃ d ∈ ([5, 6] : List Int), d ∈ ([2, 3] : List Int)) ∧
        (some 4 : Option Int) ≠ Option.none →
      ∃ first ns, (some 4 : Option Int) = some ns ∧
        afterMerge uMerge56to7 [eClusterSel1, eSimSel23] =
          some [first, simSelect [ns]]) ∧
    (¬ ((∃ d ∈ ([5, 6] : List Int), d ∈ ([2, 3] : List Int)) ∧
        (some 4 : Option Int) ≠ Option.none) →
      ∃ first, afterMerge uMerge56to7 [eClusterSel1, eSimSel23] =
        some [first, simSelect [2, 3]]) :=
  C5_merge_secondary_payload uMerge56to7 [eClusterSel1, eSimSel23]
    ⟨some [1], some 2, some [2, 3], some 4⟩ 7 [] [2, 3]
    rfl (by decide) rfl (by decide)

/-- Claim C6: after a move, with `moved` the changed ids resolved against the
pre-action state, exactly one `next()` goes to the cluster view when `moved`
is a subset of the primary selection; otherwise exactly one `next()` goes to
the similarity view when `moved` is a subset of the secondary selection;
otherwise `next()` is enqueued on the cluster view and then on the
similarity view. Absent selections count as empty sets. -/
theorem C6_move_followup (u : UpdateInfo) (h : List Entry) (st : SelState)
    (hst : lastState h Option.none = some st) :
    ((∀ x ∈ u.metadata_changed, x ∈ st.cluster_ids.getD []) →
        afterMove u h = some [clusterNext]) ∧
    (¬ (∀ x ∈ u.metadata_changed, x ∈ st.cluster_ids.getD []) →
      (∀ x ∈ u.metadata_changed, x ∈ st.similar.getD []) →
        afterMove u h = some [simNext]) ∧
    (¬ (∀ x ∈ u.metadata_changed, x ∈ st.cluster_ids.getD []) →
      ¬ (∀ x ∈ u.metadata_changed, x ∈ st.similar.getD []) →
        afterMove u h = some [clusterNext, simNext]) := by
  refine ⟨fun h1 => ?_, fun h1 h2 => ?_, fun h1 h2 => ?_⟩
  · simp only [afterMove, getClusters, hst]
    rw [if_pos h1]
  · simp only [afterMove, getClusters, hst]
    rw [if_neg h1, if_pos h2]
  · simp only [afterMove, getClusters, hst]
    rw [if_neg h1, if_neg h2]

/-- Claim C6 witness: with primary selection `[7]`, secondary selection `[9]`
and changed ids `[7, 9]`, the move follow-up enqueues `next()` on the cluster
view and then on the similarity view. -/
theorem C6_move_followup_witness :
    ((∀ x ∈ ([7, 9] : List Int), x ∈ ([7] : List Int)) →
        afterMove uMove79 [eClusterSel7, eSimSel9] = some [clusterNext]) ∧
    (¬ (∀ x ∈ ([7, 9] : List Int), x ∈ ([7] : List Int)) →
      (∀ x ∈ ([7, 9] : List Int), x ∈ ([9] : List Int)) →
        afterMove uMove79 [eClusterSel7, eSimSel9] = some [simNext]) ∧
    (¬ (∀ x ∈ ([7, 9] : List Int), x ∈ ([7] : List Int)) →
      ¬ (∀ x ∈ ([7, 9] : List Int), x ∈ ([9] : List Int)) →
        afterMove uMove79 [eClusterSel7, eSimSel9] = some [clusterNext, simNext]) :=
  C6_move_followup uMove79 [eClusterSel7, eSimSel9]
    ⟨some [7], Option.none, some [9], Option.none⟩ (by decide)

/-- Claim C7 helper: filtering the deliveries of one emission for a given
handler counts that handler's occurrences in the handler list. -/
theorem filterFires_map (hl : List Nat) (cb : Nat) (u : UpdateInfo) :
    ((hl.map (fun hid => (hid, u))).filter (fun p => p.1 == cb)).length
      = (hl.filter (fun x => x == cb)).length := by
  induction hl with
  | nil => rfl
  | cons a restl ih =>
    simp only [List.map_cons, List.filter_cons]
    by_cases hx : (a == cb) = true
    · simp [hx, ih]
    · simp [hx, ih]

/-- Claim C7 helper: a freshly connected handler occurs exactly once on the
bus. -/
theorem filter_connect_one (b : EventBus) (cb : Nat) (hfresh : cb ∉ b.handlers) :
    ((connectH cb b).handlers.filter (fun x => x == cb)).length = 1 := by
  unfold connectH
  rw [List.filter_append]
  have h1 : b.handlers.filter (fun x => x == cb) = [] := by
    rw [List.filter_eq_nil_iff]
    intro a ha hbeq
    rw [beq_iff_eq] at hbeq
    subst hbeq
    exact hfresh ha
  rw [h1]
  simp

/-- Claim C7 helper: during the run of the operation, each single emission is
delivered to the task's freshly connected callback exactly once. -/
theorem emit_fires_once (b : EventBus) (cb : Nat) (u : UpdateInfo)
    (hfresh : cb ∉ b.handlers) :
    ((emitCluster (connectH cb b) u).filter (fun p => p.1 == cb)).length = 1 := by
  unfold emitCluster
  rw [filterFires_map]
  exact filter_connect_one b cb hfresh

/-- Claim C7 helper: over the whole run, the callback receives one delivery
per emitted notification. -/
theorem fires_count (b : EventBus) (cb : Nat) (hfresh : cb ∉ b.handlers)
    (emitted : List UpdateInfo) :
    firesTo cb ((emitted.map (fun u => emitCluster (connectH cb b) u)).flatten)
      = emitted.length := by
  induction emitted with
  | nil => rfl
  | cons u us ih =>
    unfold firesTo at ih ⊢
    simp only [List.map_cons, List.flatten_cons, List.filter_append,
      List.length_append, List.length_cons]
    rw [emit_fires_once b cb u hfresh, ih]
    omega

/-- Claim C7 (amended): in the no-callback branch of `_eval`, the
subscription stays active for the operation's entire synchronous execution —
the completion callback fires once per `'cluster'` notification emitted
during it (so exactly once only when exactly one notification is emitted) —
and the subscription is removed when the operation returns, never outliving
the task's execution. -/
theorem C7_eval_subscription (b : EventBus) (cb : Nat) (emitted : List UpdateInfo)
    (hfresh : cb ∉ b.handlers) :
    firesTo cb (evalEventPath b cb emitted).1 = emitted.length ∧
    cb ∉ (evalEventPath b cb emitted).2.handlers := by
  refine ⟨fires_count b cb hfresh emitted, ?_⟩
  intro hmem
  simp only [evalEventPath, unconnectH] at hmem
  have hpred := (List.mem_filter.mp hmem).2
  simp at hpred

/-- Claim C7 witness: with one pre-existing unrelated handler and a single
emitted notification, the callback fires exactly once and is gone from the
bus afterwards. -/
theorem C7_eval_subscription_witness :
    firesTo 0 (evalEventPath ⟨[1]⟩ 0 [uMerge56to7]).1 = 1 ∧
    0 ∉ (evalEventPath ⟨[1]⟩ 0 [uMerge56to7]).2.handlers :=
  C7_eval_subscription ⟨[1]⟩ 0 [uMerge56to7] (by decide)

/-- Claim C7 counterexample: when the operation emits two `'cluster'`
notifications during its synchronous run — as a merge does when the ancestor
metadata update emits a second one — the still-connected callback fires
twice, not at most once. -/
theorem C7_counterexample :
    ¬ (firesTo 0 (evalEventPath ⟨[]⟩ 0 [uMerge56to7, uMove7noise]).1 ≤ 1) ∧
    firesTo 0 (evalEventPath ⟨[]⟩ 0 [uMerge56to7, uMove7noise]).1 = 2 := by
  decide

/-- Claim C8 helper: `_log` on a non-empty history reduces to a comparison
with its last entry. -/
theorem logEntry_concat (h0 : List Entry) (last e : Entry) :
    logEntry (h0 ++ [last]) e =
      if tailEq last e = true then h0 ++ [last] else (h0 ++ [last]) ++ [e] := by
  unfold logEntry
  rw [List.getLast?_concat]

/-- Claim C8: `_log` is append-only — it either leaves the history unchanged
or appends exactly one entry at the tail (undo and redo go through the same
`_log` and never remove entries) — a new entry equal to the current last one
in everything but the sender is dropped, and the history therefore never
holds two consecutive entries that are structurally identical ignoring the
sender. -/
theorem C8_history_append_only (h : List Entry) (e : Entry)
    (hnd : List.Chain' (fun a b => tailEq a b = false) h) :
    (logEntry h e = h ∨ logEntry h e = h ++ [e]) ∧
    (∀ l, h.getLast? = some l → tailEq l e = true → logEntry h e = h) ∧
    List.Chain' (fun a b => tailEq a b = false) (logEntry h e) := by
  rcases h.eq_nil_or_concat with rfl | ⟨h0, last, rfl⟩
  · refine ⟨Or.inr rfl, fun l hl => ?_, ?_⟩
    · simp at hl
    · show List.Chain' (fun a b => tailEq a b = false) [e]
      simp
  · simp only [List.concat_eq_append] at hnd ⊢
    rw [logEntry_concat]
    by_cases htail : tailEq last e = true
    · rw [if_pos htail]
      exact ⟨Or.inl rfl, fun l _ _ => rfl, hnd⟩
    · rw [if_neg htail]
      refine ⟨Or.inr rfl, fun l hsl htl => ?_, ?_⟩
      · rw [List.getLast?_concat] at hsl
        cases hsl
        exact absurd htl htail
      · rw [List.chain'_append]
        refine ⟨hnd, by simp, fun x hx y hy => ?_⟩
        rw [List.getLast?_concat] at hx
        cases hx
        cases hy
        rw [Bool.not_eq_true] at htail
        exact htail

/-- Claim C8 witness: appending a move entry after a selection entry keeps
the history duplicate-free and appends exactly one entry. -/
theorem C8_history_append_only_witness :
    (logEntry [eClusterSel1] eMoveDup = [eClusterSel1] ∨
      logEntry [eClusterSel1] eMoveDup = [eClusterSel1] ++ [eMoveDup]) ∧
    (∀ l, [eClusterSel1].getLast? = some l → tailEq l eMoveDup = true →
      logEntry [eClusterSel1] eMoveDup = [eClusterSel1]) ∧
    List.Chain' (fun a b => tailEq a b = false) (logEntry [eClusterSel1] eMoveDup) :=
  C8_history_append_only [eClusterSel1] eMoveDup (by simp)

/-- Claim C10: when `cluster_ids` is absent it defaults to the current
selection, and whenever the resulting id list has length at most one,
`Supervisor.merge` returns `None`, does not call `clustering.merge`, leaves
the clustering store untouched, and pushes nothing onto the global history —
for any clustering store and any global-history action. -/
theorem C10_merge_guard {Store GH : Type}
    (clusteringMerge : List Int → Option Int → Store → Store × UpdateInfo)
    (ghAction : GH → GH)
    (selected : List Int) (cluster_ids : Option (List Int)) (toId : Option Int)
    (store : Store) (gh : GH)
    (hlen : (match cluster_ids with
      | Option.none => selected
      | some l => l).length ≤ 1) :
    supervisorMerge clusteringMerge ghAction selected cluster_ids toId store gh
      = (Option.none, store, gh) := by
  simp only [supervisorMerge]
  rw [if_pos hlen]

/-- Claim C10 witness: with an absent `cluster_ids` and a singleton current
selection, merge is a no-op on a concrete store and history. -/
theorem C10_merge_guard_witness :
    supervisorMerge (fun _ _ s => (s + 1, uMerge56to7)) (fun g => g + 1)
      [3] Option.none Option.none (5 : Nat) (7 : Nat) = (Option.none, 5, 7) :=
  C10_merge_guard (fun _ _ s => (s + 1, uMerge56to7)) (fun g => g + 1)
    [3] Option.none Option.none 5 7 (by decide)
